import Mathlib

/-!
Verification of the credential and session lifecycle manager of the
INTERVIEW-AI backend (backend/routes/auth.py, backend/utils/jwt_auth.py,
backend/db/redis.py), as a shallow embedding in Lean 4.

Conventions of the embedding:
- time is a Nat counting seconds (absolute instants);
- password plaintexts are byte lists (List Nat), matching the UTF-8 bytes
  the Python strings encode to;
- the Redis string store is a function from key to an optional entry
  carrying the value and an optional absolute expiry instant (Redis
  semantics: a key with an expiry is gone once now reaches it; a key
  without one persists);
- the bcrypt digest space is modelled by the inductive StoredHash: a
  well-formed bcrypt digest records its salt and the first 72 bytes of
  the hashed plaintext (bcrypt truncates at 72 bytes; the digest
  determines, via re-derivation with the stored salt, exactly which
  truncated plaintexts verify), and every string passlib cannot identify
  as a bcrypt digest is the malformed case;
- the signed JWT is modelled as its payload plus a signature tag that is
  valid exactly when it equals the signing secret; PyJWT rejects a token
  whose exp claim is at or before the current instant.
-/

namespace InterviewAI

/-! ## Basic types -/

/-- Password plaintexts as byte lists (UTF-8 bytes of the Python string). -/
abbrev Bytes := List Nat

/-- Redis string entry: a value plus an optional absolute expiry instant
(none means the key persists, as after a bare INCR). -/
structure RedisEntry (α : Type) where
  value : α
  expires_at : Option Nat
deriving DecidableEq, Repr

/-- Redis key liveness: a key with an expiry instant is gone once now
reaches it. -/
def RedisEntry.isLive {α : Type} (e : RedisEntry α) (now : Nat) : Bool :=
  match e.expires_at with
  | none => true
  | some t => decide (now < t)

/-- Redis GET: the value when the key exists and is live, else absent. -/
def redisGet {κ α : Type} (store : κ → Option (RedisEntry α)) (k : κ) (now : Nat) :
    Option α :=
  match store k with
  | some e => if e.isLive now then some e.value else none
  | none => none

/-- Write one key of a keyed store. -/
def setKey {κ α : Type} [DecidableEq κ] (store : κ → Option α) (k : κ) (v : α) :
    κ → Option α :=
  fun k2 => if k2 = k then some v else store k2

/-- Redis DEL (also Python dict del): remove one key. -/
def delKey {κ α : Type} [DecidableEq κ] (store : κ → Option α) (k : κ) :
    κ → Option α :=
  fun k2 => if k2 = k then none else store k2

/-- Redis SETEX: unconditional overwrite with a TTL in seconds. -/
def redisSetex {κ α : Type} [DecidableEq κ] (store : κ → Option (RedisEntry α))
    (k : κ) (ttl : Nat) (v : α) (now : Nat) : κ → Option (RedisEntry α) :=
  setKey store k ⟨v, some (now + ttl)⟩

/-- Redis INCR: increments a live integer key keeping its TTL; an absent or
expired key is created fresh at 1 with no TTL. -/
def redisIncr {κ : Type} [DecidableEq κ] (store : κ → Option (RedisEntry Nat))
    (k : κ) (now : Nat) : κ → Option (RedisEntry Nat) :=
  match store k with
  | some e =>
      if e.isLive now then setKey store k ⟨e.value + 1, e.expires_at⟩
      else setKey store k ⟨1, none⟩
  | none => setKey store k ⟨1, none⟩

/-- Redis EXPIRE: sets the TTL of a live key; no-op on an absent or expired
key. -/
def redisExpire {κ α : Type} [DecidableEq κ] (store : κ → Option (RedisEntry α))
    (k : κ) (secs : Nat) (now : Nat) : κ → Option (RedisEntry α) :=
  match store k with
  | some e =>
      if e.isLive now then setKey store k ⟨e.value, some (now + secs)⟩
      else store
  | none => store

/-! ## Password hasher (passlib CryptContext with the bcrypt scheme) -/

/-- bcrypt hashes only the first 72 bytes of the plaintext. -/
def truncate72 (p : Bytes) : Bytes := p.take 72

/-- Stored hash strings: either an identifiable bcrypt digest (its salt and
the truncated bytes the digest was derived from) or a string passlib cannot
identify as any configured scheme. -/
inductive StoredHash where
  | bcrypt (salt : Nat) (body : Bytes)
  | malformed (s : String)
deriving DecidableEq, Repr

/-- pwd_context.hash: salted bcrypt digest of the truncated plaintext. The
salt is drawn randomly at run time, so it is a parameter here. -/
def hash_password (salt : Nat) (password : Bytes) : StoredHash :=
  .bcrypt salt (truncate72 password)

/-- pwd_context.verify: re-derives with the stored salt and compares, for an
identifiable digest; raises UnknownHashError (a ValueError) on a string it
cannot identify as a bcrypt digest. -/
def pwd_context_verify (plain : Bytes) (h : StoredHash) : Except String Bool :=
  match h with
  | .bcrypt _ body => .ok (decide (truncate72 plain = body))
  | .malformed _ => .error "UnknownHashError"

/-- verify_password of auth.py: a direct wrapper of pwd_context.verify, with
no exception handling of its own. -/
def verify_password (plain_password : Bytes) (hashed_password : StoredHash) :
    Except String Bool :=
  pwd_context_verify plain_password hashed_password

/-! ## Token issuer and verifier (jwt_auth.py on PyJWT) -/

/-- Identity claims the system places in every token. create_access_token
rejects a payload missing user_id or email, so the claim set is a record
with both fields mandatory. -/
structure Claims where
  user_id : Nat
  email : String
deriving DecidableEq, Repr

/-- Signed bearer token: the payload plus the secret it was signed with.
The signature verifies exactly when sig equals the verifier secret. -/
structure Token where
  user_id : Nat
  email : String
  exp : Nat
  sig : Nat
deriving DecidableEq, Repr

/-- Concrete stand-in for JWT_SECRET. -/
def jwtSecret : Nat := 17

/-- create_access_token: embeds the claims and an absolute expiry now plus
expires_in_minutes, signed with JWT_SECRET. -/
def create_access_token (data : Claims) (expires_in_minutes : Nat) (now : Nat) :
    Token :=
  { user_id := data.user_id
    email := data.email
    exp := now + expires_in_minutes * 60
    sig := jwtSecret }

/-- Decoded token payload (the claims dict PyJWT returns, exp included). -/
structure TokenPayload where
  user_id : Nat
  email : String
  exp : Nat
deriving DecidableEq, Repr

/-- decode_access_token: returns the payload when the signature matches
JWT_SECRET and the token is unexpired; returns none (the caller sees a
single typed failure) on a bad signature or an expired token. PyJWT raises
ExpiredSignatureError when exp is at or before the current instant. -/
def decode_access_token (t : Token) (now : Nat) : Option TokenPayload :=
  if t.sig = jwtSecret ∧ now < t.exp then
    some { user_id := t.user_id, email := t.email, exp := t.exp }
  else none

/-! ## Server state -/

/-- One row of the User table left-joined with its HASH row; hash_password
is none when no HASH row exists (federated signups before a hash is set). -/
structure User where
  user_id : Nat
  email : String
  hash_password : Option StoredHash
deriving DecidableEq, Repr

/-- OTP record held in the in-memory otp_storage dict. The verified field
models the presence of the verified key (dict.get of a missing key is
falsy, so a freshly issued record carries verified = false). -/
structure OtpRecord where
  otp : String
  expires_at : Nat
  verified : Bool
deriving DecidableEq, Repr

/-- All shared mutable state the auth routes touch: the relational user
rows, the Redis session entries (key user_token:uid), the Redis failure
counters (key login_attempts:ip) and the in-memory OTP dict. -/
structure ServerState where
  users : List User
  sessions : Nat → Option (RedisEntry Token)
  login_attempts : String → Option (RedisEntry Nat)
  otp_storage : String → Option OtpRecord

/-- get_user_by_email: first user row matching the email. -/
def get_user_by_email (users : List User) (email : String) : Option User :=
  users.find? (fun u => u.email == email)

/-- create_user_hash: inserts the HASH row for the user, visible through the
left join as that user now carrying the hash. -/
def create_user_hash (users : List User) (uid : Nat) (h : StoredHash) :
    List User :=
  users.map (fun u => if u.user_id = uid then { u with hash_password := some h } else u)

/-- Fresh AUTO_INCREMENT id for create_user: one past the largest user id. -/
def freshUserId (users : List User) : Nat :=
  (users.map User.user_id).foldr max 0 + 1

/-- ACCESS_TOKEN_EXPIRE_MINUTES of auth.py. -/
def ACCESS_TOKEN_EXPIRE_MINUTES : Nat := 300

/-- store_token_in_redis: SETEX of the token under user_token:uid. -/
def store_token_in_redis (sessions : Nat → Option (RedisEntry Token))
    (uid : Nat) (token : Token) (expires_in_seconds : Nat) (now : Nat) :
    Nat → Option (RedisEntry Token) :=
  redisSetex sessions uid expires_in_seconds token now

/-- Error taxonomy of the HTTP layer as the routes raise it. -/
inductive AuthError where
  | Conflict
  | Unauthorized
  | TooManyRequests
  | NotFound
  | BadRequest
  | InternalError
deriving DecidableEq, Repr

/-- Successful login response body plus the token set as the cookie. -/
structure LoginOk where
  user_id : Nat
  email : String
  token : Token
deriving DecidableEq, Repr

/-- Failure bookkeeping of the login route: INCR on the failure counter
followed immediately by EXPIRE with the 300-second window, exactly as the
two calls appear on each 401 path. -/
def record_failure (store : String → Option (RedisEntry Nat)) (k : String)
    (now : Nat) : String → Option (RedisEntry Nat) :=
  redisExpire (redisIncr store k now) k 300 now

/-- login route: throttle read and check, user lookup, bcrypt verify (an
UnknownHashError from passlib is uncaught and surfaces as a 500), then on
success counter delete, token issue and session SETEX. -/
def login (st : ServerState) (ip : String) (email : String) (password : Bytes)
    (now : Nat) : Except AuthError LoginOk × ServerState :=
  let redis_key := "login_attempts:" ++ ip
  let attempts := (redisGet st.login_attempts redis_key now).getD 0
  if attempts ≥ 5 then
    (.error .TooManyRequests, st)
  else
    match get_user_by_email st.users email with
    | none =>
        (.error .Unauthorized,
         { st with login_attempts := record_failure st.login_attempts redis_key now })
    | some user =>
        match user.hash_password with
        | none =>
            (.error .Unauthorized,
             { st with login_attempts := record_failure st.login_attempts redis_key now })
        | some hp =>
            match verify_password password hp with
            | .error _ => (.error .InternalError, st)
            | .ok false =>
                (.error .Unauthorized,
                 { st with login_attempts := record_failure st.login_attempts redis_key now })
            | .ok true =>
                let token := create_access_token
                  { user_id := user.user_id, email := user.email }
                  ACCESS_TOKEN_EXPIRE_MINUTES now
                (.ok { user_id := user.user_id, email := user.email, token := token },
                 { st with
                    login_attempts := delKey st.login_attempts redis_key
                    sessions := store_token_in_redis st.sessions user.user_id token
                      (ACCESS_TOKEN_EXPIRE_MINUTES * 60) now })

/-- get_current_user of jwt_auth.py: cookie present, token decodes, both
identity claims truthy (a zero user_id or empty email is falsy in Python),
and the Redis session entry for the subject holds exactly this token. -/
def get_current_user (st : ServerState) (cookie : Option Token) (now : Nat) :
    Except AuthError Claims :=
  match cookie with
  | none => .error .Unauthorized
  | some token =>
      match decode_access_token token now with
      | none => .error .Unauthorized
      | some payload =>
          if payload.user_id = 0 ∨ payload.email = "" then .error .Unauthorized
          else
            match redisGet st.sessions payload.user_id now with
            | none => .error .Unauthorized
            | some stored => if stored = token then
                .ok { user_id := payload.user_id, email := payload.email }
              else .error .Unauthorized

/-- Input to the google-auth-login route, as the route distinguishes it: no
token field in the body, a token the external provider rejects (ValueError),
or a token verifying to an email. -/
inductive GoogleInput where
  | noToken
  | badToken
  | goodToken (email : String)
deriving DecidableEq, Repr

/-- Fixed plaintext whose hash the Google path installs: the UTF-8 bytes of
the string GoogleDefault@123. -/
def googleDefaultPassword : Bytes :=
  [71, 111, 111, 103, 108, 101, 68, 101, 102, 97, 117, 108, 116, 64, 49, 50, 51]

/-- google_auth_login route: verifies the external token; for a known user
missing a hash, or a freshly created user, installs the bcrypt hash of the
fixed default plaintext; then issues a token and writes the session entry.
The bcrypt salt is random at run time, so it is a parameter. -/
def google_auth_login (st : ServerState) (input : GoogleInput) (salt : Nat)
    (now : Nat) : Except AuthError LoginOk × ServerState :=
  match input with
  | .noToken => (.error .BadRequest, st)
  | .badToken => (.error .Unauthorized, st)
  | .goodToken email =>
      let (uid, users2) :=
        match get_user_by_email st.users email with
        | some user =>
            if user.hash_password = none then
              (user.user_id,
               create_user_hash st.users user.user_id
                 (hash_password salt googleDefaultPassword))
            else (user.user_id, st.users)
        | none =>
            let uid := freshUserId st.users
            (uid,
             create_user_hash (st.users ++ [{ user_id := uid, email := email, hash_password := none }])
               uid (hash_password salt googleDefaultPassword))
      let token := create_access_token { user_id := uid, email := email }
        ACCESS_TOKEN_EXPIRE_MINUTES now
      (.ok { user_id := uid, email := email, token := token },
       { st with
          users := users2
          sessions := store_token_in_redis st.sessions uid token
            (ACCESS_TOKEN_EXPIRE_MINUTES * 60) now })

/-- verify-otp route: missing record is a 400; a record past expires_at is
deleted and a 400 raised (strict comparison: at the exact instant the
record is still usable); a wrong code is a 400 leaving the record; a match
marks the record verified. -/
def verify_otp (st : ServerState) (email : String) (otp : String) (now : Nat) :
    Except AuthError Unit × ServerState :=
  match st.otp_storage email with
  | none => (.error .BadRequest, st)
  | some stored_data =>
      if stored_data.expires_at < now then
        (.error .BadRequest, { st with otp_storage := delKey st.otp_storage email })
      else if stored_data.otp ≠ otp then
        (.error .BadRequest, st)
      else
        (.ok (),
         { st with otp_storage := setKey st.otp_storage email { stored_data with verified := true } })

/-- UPDATE HASH SET hash_password WHERE email: rewrites the hash of every
user row that already has a HASH row for that email (an absent row is not
created by UPDATE). -/
def update_hash_by_email (users : List User) (email : String) (h : StoredHash) :
    List User :=
  users.map (fun u =>
    if u.email = email ∧ u.hash_password ≠ none then { u with hash_password := some h }
    else u)

/-- reset-password route: missing record, unverified record, expired record
(deleted on this path) and code mismatch each raise a 400; on success the
new password is hashed and persisted and the record is deleted. -/
def reset_password (st : ServerState) (email : String) (otp : String)
    (new_password : Bytes) (salt : Nat) (now : Nat) :
    Except AuthError Unit × ServerState :=
  match st.otp_storage email with
  | none => (.error .BadRequest, st)
  | some stored_data =>
      if stored_data.verified = false then
        (.error .BadRequest, st)
      else if stored_data.expires_at < now then
        (.error .BadRequest, { st with otp_storage := delKey st.otp_storage email })
      else if stored_data.otp ≠ otp then
        (.error .BadRequest, st)
      else
        (.ok (),
         { st with
            users := update_hash_by_email st.users email (hash_password salt new_password)
            otp_storage := delKey st.otp_storage email })

/-! ## Interleaving model of the login throttle

Each inbound wrong-credential login request from one source interacts with
Redis at two separate points of the login route: first the GET of the
failure counter together with the under-5 check, later the INCR plus EXPIRE
on the 401 path. A request is a task stepping through these two atomic
actions; a schedule names which task acts next. -/

/-- Progress of one wrong-credential login task: before the throttle read,
past the check (about to increment), rejected by the throttle, or finished
incrementing. -/
inductive TaskPhase where
  | start
  | passed
  | blocked
  | done
deriving DecidableEq, Repr

/-- Shared failure counter plus the per-task phases, all tasks hitting the
same source key at the same instant. -/
structure ThrottleSys where
  store : String → Option (RedisEntry Nat)
  tasks : List TaskPhase

/-- Source key all concurrent requests contend on. -/
def throttleKey : String := "login_attempts:1.2.3.4"

/-- One atomic step of task i: from start, execute the GET and the under-5
check of the login route; from passed, execute the INCR plus EXPIRE of the
401 path. -/
def throttleStep (sys : ThrottleSys) (i : Nat) : ThrottleSys :=
  match sys.tasks.get? i with
  | some .start =>
      let attempts := (redisGet sys.store throttleKey 0).getD 0
      if attempts ≥ 5 then { sys with tasks := sys.tasks.set i .blocked }
      else { sys with tasks := sys.tasks.set i .passed }
  | some .passed =>
      { store := record_failure sys.store throttleKey 0
        tasks := sys.tasks.set i .done }
  | _ => sys

/-- Run a schedule: the listed task indices act in order. -/
def runSchedule (sched : List Nat) (sys : ThrottleSys) : ThrottleSys :=
  sched.foldl throttleStep sys

/-- Number of tasks that got past the throttle check. -/
def countThrough (sys : ThrottleSys) : Nat :=
  (sys.tasks.filter (fun t => t = .passed ∨ t = .done)).length

/-- Six concurrent wrong-credential requests from one source against an
empty counter. -/
def sixTasks : ThrottleSys :=
  { store := fun _ => none
    tasks := List.replicate 6 .start }

/-! ## Decidability and small facts about the Redis primitives -/

instance {ε α : Type} [DecidableEq ε] [DecidableEq α] : DecidableEq (Except ε α) := fun x y =>
  match x, y with
  | .error a, .error b =>
      if h : a = b then .isTrue (congrArg Except.error h)
      else .isFalse (fun hxy => h (Except.error.inj hxy))
  | .error _, .ok _ => .isFalse (fun hxy => Except.noConfusion hxy)
  | .ok _, .error _ => .isFalse (fun hxy => Except.noConfusion hxy)
  | .ok a, .ok b =>
      if h : a = b then .isTrue (congrArg Except.ok h)
      else .isFalse (fun hxy => h (Except.ok.inj hxy))

theorem isLive_no_ttl {α : Type} (v : α) (now : Nat) :
    (RedisEntry.mk v none).isLive now = true := rfl

theorem isLive_value_irrel {α : Type} (v : α) (e : RedisEntry α) (now : Nat) :
    (RedisEntry.mk v e.expires_at).isLive now = e.isLive now := rfl

/-! ## Facts about user lookup and hash creation -/

theorem user_email_of_find (users : List User) (email : String) (u : User)
    (h : get_user_by_email users email = some u) : u.email = email := by
  have hb := List.find?_some h
  exact eq_of_beq hb

theorem create_user_hash_keeps_email (a : User) (uid : Nat) (h : StoredHash) :
    (if a.user_id = uid then { a with hash_password := some h } else a).email = a.email := by
  split <;> rfl

theorem find?_email_cons (a : User) (as : List User) (email : String) :
    (a :: as).find? (fun v => v.email == email) =
      if a.email == email then some a
      else as.find? (fun v => v.email == email) := by
  cases hpa : (a.email == email) <;> simp [List.find?, hpa]

theorem get_user_by_email_create_user_hash (users : List User) (email : String)
    (u : User) (h : StoredHash)
    (hfind : get_user_by_email users email = some u) :
    get_user_by_email (create_user_hash users u.user_id h) email =
      some { u with hash_password := some h } := by
  induction users with
  | nil => simp [get_user_by_email] at hfind
  | cons a as ih =>
      simp only [get_user_by_email, create_user_hash, List.map_cons] at hfind ih ⊢
      rw [find?_email_cons] at hfind
      rw [find?_email_cons, create_user_hash_keeps_email]
      by_cases hpa : (a.email == email) = true
      · rw [if_pos hpa] at hfind
        injection hfind with hau
        subst hau
        rw [if_pos hpa, if_pos rfl]
      · rw [if_neg hpa] at hfind
        rw [if_neg hpa]
        exact ih hfind

theorem get_user_by_email_create_fresh (users : List User) (email : String)
    (uid : Nat) (h : StoredHash)
    (hnone : get_user_by_email users email = none) :
    get_user_by_email
      (create_user_hash (users ++ [{ user_id := uid, email := email, hash_password := none }]) uid h)
      email =
      some { user_id := uid, email := email, hash_password := some h } := by
  induction users with
  | nil =>
      simp [get_user_by_email, create_user_hash, List.find?]
  | cons a as ih =>
      simp only [get_user_by_email, create_user_hash, List.cons_append, List.map_cons]
        at hnone ih ⊢
      rw [find?_email_cons] at hnone
      rw [find?_email_cons, create_user_hash_keeps_email]
      by_cases hpa : (a.email == email) = true
      · rw [if_pos hpa] at hnone
        cases hnone
      · rw [if_neg hpa] at hnone
        rw [if_neg hpa]
        exact ih hnone

theorem login_with_known_row (st : ServerState) (ip email : String) (p : Bytes)
    (salt now uid : Nat)
    (hatt : (redisGet st.login_attempts ("login_attempts:" ++ ip) now).getD 0 < 5)
    (hrow : get_user_by_email st.users email =
      some { user_id := uid, email := email, hash_password := some (hash_password salt p) }) :
    (login st ip email p now).1 =
      .ok { user_id := uid, email := email,
            token := create_access_token ⟨uid, email⟩ ACCESS_TOKEN_EXPIRE_MINUTES now } := by
  simp [login, Nat.not_le.mpr hatt, hrow, verify_password, pwd_context_verify, hash_password]

/-! ## Concrete states used by witnesses and counterexamples -/

/-- Empty shared state. -/
def emptyState : ServerState :=
  { users := []
    sessions := fun _ => none
    login_attempts := fun _ => none
    otp_storage := fun _ => none }

/-- State whose throttle counter for source 9.9.9.9 is live at 7. -/
def throttledState : ServerState :=
  { emptyState with
      login_attempts := fun k =>
        if k = "login_attempts:9.9.9.9" then some ⟨7, some 100⟩ else none }

/-- Alice with the bcrypt hash of the one-byte password a. -/
def aliceUser : User :=
  { user_id := 1, email := "alice@x.com", hash_password := some (hash_password 3 [97]) }

/-- State holding only alice, with empty Redis stores. -/
def aliceState : ServerState := { emptyState with users := [aliceUser] }

/-- Bob, whose stored hash string is not an identifiable bcrypt digest. -/
def bobState : ServerState :=
  { emptyState with
      users := [{ user_id := 1, email := "bob@x.com",
                  hash_password := some (.malformed "plaintext-oops") }] }

/-- Token previously issued to alice: subject 1, expiry instant 5000,
signed with the real secret. -/
def aliceT1 : Token :=
  { user_id := 1, email := "alice@x.com", exp := 5000, sig := jwtSecret }

/-- State where alice holds the session token aliceT1. -/
def aliceSessionState : ServerState :=
  { emptyState with
      users := [aliceUser]
      sessions := fun k => if k = 1 then some ⟨aliceT1, some 5000⟩ else none }

/-- State holding a verified, unexpired OTP record for bob. -/
def otpVerifiedState : ServerState :=
  { emptyState with
      users := [{ user_id := 1, email := "bob@x.com",
                  hash_password := some (hash_password 0 [97]) }]
      otp_storage := fun k =>
        if k = "bob@x.com" then some ⟨"123456", 1000, true⟩ else none }

/-- State holding an issued but never verified OTP record for bob. -/
def otpUnverifiedState : ServerState :=
  { emptyState with
      otp_storage := fun k =>
        if k = "bob@x.com" then some ⟨"123456", 1000, false⟩ else none }

/-- State holding a verified OTP record for eve that expired at instant 100. -/
def otpExpiredState : ServerState :=
  { emptyState with
      otp_storage := fun k =>
        if k = "eve@x.com" then some ⟨"123456", 100, true⟩ else none }

/-- State holding a verified, unexpired OTP record for eve with code 123456. -/
def otpMismatchState : ServerState :=
  { emptyState with
      otp_storage := fun k =>
        if k = "eve@x.com" then some ⟨"123456", 1000, true⟩ else none }

end InterviewAI

namespace InterviewAI

/-! ## Theorems -/

/-- C2: with the failure counter for the source at 5 or more within the
window, login returns TooManyRequests and touches nothing, for every
presented email and password — the credential check is never reached. -/
theorem c2_throttle_blocks_before_credential_check
    (st : ServerState) (ip email : String) (password : Bytes) (now : Nat)
    (h : 5 ≤ (redisGet st.login_attempts ("login_attempts:" ++ ip) now).getD 0) :
    login st ip email password now = (.error .TooManyRequests, st) := by
  simp only [login]
  rw [if_pos h]

/-- Witness for C2 at a concrete throttled state: even the stored password
of alice is rejected with TooManyRequests. -/
theorem c2_throttle_witness :
    login { throttledState with users := [aliceUser] } "9.9.9.9" "alice@x.com" [97] 0 =
      (.error .TooManyRequests, { throttledState with users := [aliceUser] }) :=
  c2_throttle_blocks_before_credential_check
    { throttledState with users := [aliceUser] } "9.9.9.9" "alice@x.com" [97] 0 (by decide)

/-- C4: a token issued over claims holding user_id and email with TTL ttl
decodes to exactly those identity claims (with the computed expiry) at any
instant strictly before expiry, and decodes to the typed invalid result at
and after the expiry instant. -/
theorem c4_issue_verify_roundtrip_with_expiry_boundary
    (data : Claims) (ttl t : Nat) :
    (∀ now, now < t + ttl * 60 →
      decode_access_token (create_access_token data ttl t) now =
        some { user_id := data.user_id, email := data.email, exp := t + ttl * 60 }) ∧
    (∀ now, t + ttl * 60 ≤ now →
      decode_access_token (create_access_token data ttl t) now = none) := by
  constructor
  · intro now h
    simp [decode_access_token, create_access_token, h]
  · intro now h
    simp [decode_access_token, create_access_token, Nat.not_lt.mpr h]

/-- Witness for C4: a token issued at instant 0 with the 300-minute TTL is
valid at instant 5 and invalid at the exact expiry instant 18000. -/
theorem c4_issue_verify_witness :
    decode_access_token (create_access_token ⟨1, "a@x.com"⟩ 300 0) 5 =
      some ⟨1, "a@x.com", 18000⟩ ∧
    decode_access_token (create_access_token ⟨1, "a@x.com"⟩ 300 0) 18000 = none :=
  ⟨(c4_issue_verify_roundtrip_with_expiry_boundary ⟨1, "a@x.com"⟩ 300 0).1 5 (by decide),
   (c4_issue_verify_roundtrip_with_expiry_boundary ⟨1, "a@x.com"⟩ 300 0).2 18000 (by decide)⟩

/-- C5 counterexample: the 73-byte plaintext of all a and the distinct
72-byte plaintext of all a verify against each other, because bcrypt hashes
only the first 72 bytes — the claim demands false for every distinct other
plaintext. -/
theorem c5_distinct_plaintext_counterexample :
    List.replicate 73 97 ≠ List.replicate 72 97 ∧
    pwd_context_verify (List.replicate 72 97)
      (hash_password 0 (List.replicate 73 97)) = .ok true := by
  decide

/-- C5 amended: the round trip holds for any plaintext of length at least
one, and a second plaintext fails verification exactly when its first 72
bytes differ — plaintexts agreeing on their first 72 bytes are
interchangeable under bcrypt. -/
theorem c5_roundtrip_up_to_truncation (p : Bytes) (salt : Nat)
    (h : 1 ≤ p.length) :
    verify_password p (hash_password salt p) = .ok true ∧
    (∀ p2 : Bytes, truncate72 p2 = truncate72 p →
      verify_password p2 (hash_password salt p) = .ok true) ∧
    (∀ p2 : Bytes, truncate72 p2 ≠ truncate72 p →
      verify_password p2 (hash_password salt p) = .ok false) := by
  refine ⟨?_, ?_, ?_⟩
  · simp [verify_password, pwd_context_verify, hash_password]
  · intro p2 heq
    simp [verify_password, pwd_context_verify, hash_password, heq]
  · intro p2 hne
    simp [verify_password, pwd_context_verify, hash_password, hne]

/-- Witness for C5 amended: the one-byte password a round-trips, the
one-byte password b fails against its hash, and the 72-byte all-a password,
agreeing with the 73-byte all-a password on the first 72 bytes, verifies
against its hash. -/
theorem c5_roundtrip_witness :
    verify_password [97] (hash_password 0 [97]) = .ok true ∧
    verify_password [98] (hash_password 0 [97]) = .ok false ∧
    verify_password (List.replicate 72 97)
      (hash_password 0 (List.replicate 73 97)) = .ok true :=
  ⟨(c5_roundtrip_up_to_truncation [97] 0 (by decide)).1,
   (c5_roundtrip_up_to_truncation [97] 0 (by decide)).2.2 [98] (by decide),
   (c5_roundtrip_up_to_truncation (List.replicate 73 97) 0 (by decide)).2.1
     (List.replicate 72 97) (by decide)⟩

/-- C6 counterexample: a first failed login at instant 0 creates the
counter with expiry 300, and a second failed login at instant 100 moves the
expiry to 400 — the EXPIRE call runs on every failure, extending the
window, where the claim says the TTL is set only at creation. -/
theorem c6_ttl_extension_counterexample :
    (login aliceState "7.7.7.7" "alice@x.com" [98] 0).2.login_attempts
      "login_attempts:7.7.7.7" = some ⟨1, some 300⟩ ∧
    (login (login aliceState "7.7.7.7" "alice@x.com" [98] 0).2
        "7.7.7.7" "alice@x.com" [98] 100).2.login_attempts
      "login_attempts:7.7.7.7" = some ⟨2, some 400⟩ := by
  decide

/-- C6 amended: every recorded failure increments the counter and resets
its expiry to the full 300-second window from that failure — a sliding
window, so the lockout ends 300 seconds after the most recent failure, not
the first. -/
theorem c6_every_failure_resets_ttl
    (store : String → Option (RedisEntry Nat)) (k : String) (now : Nat) :
    record_failure store k now k =
      some ⟨(redisGet store k now).getD 0 + 1, some (now + 300)⟩ := by
  cases hsk : store k with
  | none =>
      simp [record_failure, redisExpire, redisIncr, redisGet, setKey, hsk, isLive_no_ttl]
  | some e =>
      cases hlive : e.isLive now with
      | false =>
          simp [record_failure, redisExpire, redisIncr, redisGet, setKey, hsk, hlive,
            isLive_no_ttl]
      | true =>
          simp [record_failure, redisExpire, redisIncr, redisGet, setKey, hsk, hlive,
            isLive_value_irrel]

/-- C8 counterexample: with a stored hash passlib cannot identify,
verification raises UnknownHashError instead of returning false, and the
login route surfaces it as an internal error without even recording a
failure. -/
theorem c8_malformed_digest_counterexample :
    verify_password [97] (.malformed "plaintext-oops") ≠ .ok false ∧
    verify_password [97] (.malformed "plaintext-oops") = .error "UnknownHashError" ∧
    (login bobState "1.1.1.1" "bob@x.com" [97] 0).1 = .error .InternalError ∧
    (login bobState "1.1.1.1" "bob@x.com" [97] 0).2.login_attempts
      "login_attempts:1.1.1.1" = none := by
  decide

/-- C8 amended: for every plaintext and every malformed digest,
verification raises UnknownHashError — a ValueError that propagates out of
verify_password uncaught — and a login reaching such a digest ends as an
internal error rather than an authentication result. -/
theorem c8_malformed_digest_raises :
    (∀ (p : Bytes) (s : String),
      verify_password p (StoredHash.malformed s) = .error "UnknownHashError") ∧
    (login bobState "1.1.1.1" "bob@x.com" [97] 0).1 = .error .InternalError := by
  exact ⟨fun _ _ => rfl, by decide⟩

/-- C9: evaluation at the failing schedule — six concurrent
wrong-credential requests from one source, each performing the throttle GET
before any performs the INCR, all pass the under-5 check, exceeding the
bound the claim asserts. -/
theorem c9_race_lets_six_through :
    countThrough (runSchedule [0, 1, 2, 3, 4, 5] sixTasks) = 6 := by
  decide

/-- C3: reset-password fails BadRequest when the OTP record for the email
is absent or was never marked verified, and a success deletes the record,
so repeating the call — any code, any time — fails BadRequest on the then
unchanged state. -/
theorem c3_reset_password_verified_gate_and_single_use
    (st : ServerState) (email otp : String) (np : Bytes) (salt now : Nat) :
    (st.otp_storage email = none →
      reset_password st email otp np salt now = (.error .BadRequest, st)) ∧
    (∀ r, st.otp_storage email = some r → r.verified = false →
      reset_password st email otp np salt now = (.error .BadRequest, st)) ∧
    ((reset_password st email otp np salt now).1 = .ok () →
      (reset_password st email otp np salt now).2.otp_storage email = none ∧
      ∀ otp2 np2 salt2 now2,
        reset_password (reset_password st email otp np salt now).2 email otp2 np2 salt2 now2 =
          (.error .BadRequest, (reset_password st email otp np salt now).2)) := by
  refine ⟨fun h => by simp [reset_password, h],
          fun r hr hv => by simp [reset_password, hr, hv],
          fun hok => ?_⟩
  cases hrec : st.otp_storage email with
  | none => simp [reset_password, hrec] at hok
  | some r =>
      by_cases hv : r.verified = false
      · simp [reset_password, hrec, hv] at hok
      · by_cases hex : r.expires_at < now
        · simp [reset_password, hrec, hv, hex] at hok
        · by_cases ho : r.otp = otp
          · have hdel : (reset_password st email otp np salt now).2.otp_storage email = none := by
              simp [reset_password, hrec, hv, hex, ho, delKey]
            refine ⟨hdel, fun otp2 np2 salt2 now2 => ?_⟩
            generalize hg : (reset_password st email otp np salt now).2 = st2 at hdel ⊢
            simp [reset_password, hdel]
          · simp [reset_password, hrec, hv, hex, ho] at hok

/-- Witness for C3: absent record fails, unverified record fails, and a
successful reset for bob deletes the record so the identical second call
fails. -/
theorem c3_reset_password_witness :
    reset_password emptyState "bob@x.com" "123456" [98] 0 5 =
      (.error .BadRequest, emptyState) ∧
    reset_password otpUnverifiedState "bob@x.com" "123456" [98] 0 5 =
      (.error .BadRequest, otpUnverifiedState) ∧
    (reset_password otpVerifiedState "bob@x.com" "123456" [98] 0 5).2.otp_storage
      "bob@x.com" = none ∧
    reset_password (reset_password otpVerifiedState "bob@x.com" "123456" [98] 0 5).2
        "bob@x.com" "123456" [98] 0 5 =
      (.error .BadRequest, (reset_password otpVerifiedState "bob@x.com" "123456" [98] 0 5).2) := by
  have h1 := (c3_reset_password_verified_gate_and_single_use
    emptyState "bob@x.com" "123456" [98] 0 5).1 (by decide)
  have h2 := (c3_reset_password_verified_gate_and_single_use
    otpUnverifiedState "bob@x.com" "123456" [98] 0 5).2.1
    ⟨"123456", 1000, false⟩ (by decide) (by decide)
  have h3 := (c3_reset_password_verified_gate_and_single_use
    otpVerifiedState "bob@x.com" "123456" [98] 0 5).2.2 (by decide)
  exact ⟨h1, h2, h3.1, h3.2 "123456" [98] 0 5⟩

/-- C7 counterexample: a failing reset-password that finds the verified
record expired deletes the record rather than leaving it unchanged — the
claim says every failing call leaves the record untouched. -/
theorem c7_expired_failure_deletes_record_counterexample :
    (reset_password otpExpiredState "eve@x.com" "123456" [97] 0 101).1 =
      .error .BadRequest ∧
    otpExpiredState.otp_storage "eve@x.com" = some ⟨"123456", 100, true⟩ ∧
    (reset_password otpExpiredState "eve@x.com" "123456" [97] 0 101).2.otp_storage
      "eve@x.com" = none := by
  decide

/-- C7 amended: a failing reset-password with the record absent, not
verified, or the code mismatched leaves all state unchanged, so the client
may retry within the TTL; the one failing case that finds the verified
record already expired deletes the record (a retry within the TTL is
impossible then anyway); only these failures and success touch it. -/
theorem c7_failures_leave_record_except_expiry
    (st : ServerState) (email otp : String) (np : Bytes) (salt now : Nat) :
    (st.otp_storage email = none →
      reset_password st email otp np salt now = (.error .BadRequest, st)) ∧
    (∀ r, st.otp_storage email = some r → r.verified = false →
      reset_password st email otp np salt now = (.error .BadRequest, st)) ∧
    (∀ r, st.otp_storage email = some r → r.verified = true →
      ¬ r.expires_at < now → r.otp ≠ otp →
      reset_password st email otp np salt now = (.error .BadRequest, st)) ∧
    (∀ r, st.otp_storage email = some r → r.verified = true → r.expires_at < now →
      (reset_password st email otp np salt now).1 = .error .BadRequest ∧
      (reset_password st email otp np salt now).2.otp_storage email = none) := by
  refine ⟨fun h => by simp [reset_password, h],
          fun r hr hv => by simp [reset_password, hr, hv],
          fun r hr hv hex ho => by simp [reset_password, hr, hv, hex, ho],
          fun r hr hv hex => ?_⟩
  constructor
  · simp [reset_password, hr, hv, hex]
  · simp [reset_password, hr, hv, hex, delKey]

/-- C1: when a user holds session token T1 and a later successful login
issues a fresh token T2 (a different token: its expiry instant differs from
the one the new login computes) and overwrites the Session Registry entry,
get_current_user rejects T1 as Unauthorized and accepts T2, even though T1
still decodes — it verifies cryptographically — at the instant of the
check. -/
theorem c1_relogin_revokes_previous_token
    (st : ServerState) (ip email : String) (pw : Bytes)
    (u : User) (hp : StoredHash) (T1 : Token) (e1 : Nat) (t2 now : Nat)
    (hT1held : st.sessions u.user_id = some ⟨T1, e1⟩)
    (hT1sig : T1.sig = jwtSecret)
    (hT1sub : T1.user_id = u.user_id)
    (hattempts : (redisGet st.login_attempts ("login_attempts:" ++ ip) t2).getD 0 < 5)
    (hu : get_user_by_email st.users email = some u)
    (hhash : u.hash_password = some hp)
    (hpw : verify_password pw hp = .ok true)
    (huid0 : u.user_id ≠ 0)
    (hemail0 : u.email ≠ "")
    (hT1fresh : now < T1.exp)
    (hT1diff : T1.exp ≠ t2 + ACCESS_TOKEN_EXPIRE_MINUTES * 60)
    (hnow2 : now < t2 + ACCESS_TOKEN_EXPIRE_MINUTES * 60) :
    (login st ip email pw t2).1 =
      .ok { user_id := u.user_id, email := u.email,
            token := create_access_token ⟨u.user_id, u.email⟩
              ACCESS_TOKEN_EXPIRE_MINUTES t2 } ∧
    decode_access_token T1 now ≠ none ∧
    get_current_user (login st ip email pw t2).2 (some T1) now =
      .error .Unauthorized ∧
    get_current_user (login st ip email pw t2).2
        (some (create_access_token ⟨u.user_id, u.email⟩ ACCESS_TOKEN_EXPIRE_MINUTES t2))
        now =
      .ok ⟨u.user_id, u.email⟩ := by
  have hkey : ¬ (5 ≤ (redisGet st.login_attempts ("login_attempts:" ++ ip) t2).getD 0) :=
    Nat.not_le.mpr hattempts
  have hlogin : login st ip email pw t2 =
      (.ok { user_id := u.user_id, email := u.email,
             token := create_access_token ⟨u.user_id, u.email⟩
               ACCESS_TOKEN_EXPIRE_MINUTES t2 },
       { st with
          login_attempts := delKey st.login_attempts ("login_attempts:" ++ ip)
          sessions := store_token_in_redis st.sessions u.user_id
            (create_access_token ⟨u.user_id, u.email⟩ ACCESS_TOKEN_EXPIRE_MINUTES t2)
            (ACCESS_TOKEN_EXPIRE_MINUTES * 60) t2 }) := by
    simp [login, hkey, hu, hhash, hpw]
  have hT2neq : create_access_token ⟨u.user_id, u.email⟩ ACCESS_TOKEN_EXPIRE_MINUTES t2 ≠ T1 := by
    intro he
    exact hT1diff (congrArg Token.exp he).symm
  refine ⟨by rw [hlogin], ?_, ?_, ?_⟩
  · simp [decode_access_token, hT1sig, hT1fresh]
  · rw [hlogin]
    by_cases hz : T1.user_id = 0 ∨ T1.email = ""
    · simp [get_current_user, decode_access_token, hT1sig, hT1fresh, hz]
    · simp [get_current_user, decode_access_token, hT1sig, hT1fresh, hz,
        store_token_in_redis, redisSetex, setKey, redisGet, hT1sub,
        RedisEntry.isLive, hnow2, hT2neq]
  · rw [hlogin]
    simp [get_current_user, decode_access_token, create_access_token, hnow2,
      huid0, hemail0, store_token_in_redis, redisSetex, setKey, redisGet,
      RedisEntry.isLive]

/-- Witness for C1: alice holds token aliceT1; a second login at instant 10
issues the fresh token; checked at instant 20, aliceT1 is rejected and the
fresh token accepted, while aliceT1 still decodes. -/
theorem c1_relogin_witness :
    (login aliceSessionState "2.2.2.2" "alice@x.com" [97] 10).1 =
      .ok { user_id := 1, email := "alice@x.com",
            token := create_access_token ⟨1, "alice@x.com"⟩
              ACCESS_TOKEN_EXPIRE_MINUTES 10 } ∧
    decode_access_token aliceT1 20 ≠ none ∧
    get_current_user (login aliceSessionState "2.2.2.2" "alice@x.com" [97] 10).2
        (some aliceT1) 20 = .error .Unauthorized ∧
    get_current_user (login aliceSessionState "2.2.2.2" "alice@x.com" [97] 10).2
        (some (create_access_token ⟨1, "alice@x.com"⟩ ACCESS_TOKEN_EXPIRE_MINUTES 10))
        20 = .ok ⟨1, "alice@x.com"⟩ :=
  c1_relogin_revokes_previous_token aliceSessionState "2.2.2.2" "alice@x.com" [97]
    aliceUser (hash_password 3 [97]) aliceT1 5000 10 20
    (by decide) (by decide) (by decide) (by decide) (by decide) (by decide)
    (by decide) (by decide) (by decide) (by decide) (by decide) (by decide)

/-- Witness for C7 amended: concrete mismatch failure leaves the state
unchanged; concrete expired failure deletes the record. -/
theorem c7_failures_witness :
    reset_password otpMismatchState "eve@x.com" "000000" [97] 0 5 =
      (.error .BadRequest, otpMismatchState) ∧
    (reset_password otpExpiredState "eve@x.com" "123456" [97] 0 101).1 =
      .error .BadRequest ∧
    (reset_password otpExpiredState "eve@x.com" "123456" [97] 0 101).2.otp_storage
      "eve@x.com" = none := by
  have h1 := (c7_failures_leave_record_except_expiry
    otpMismatchState "eve@x.com" "000000" [97] 0 5).2.2.1
    ⟨"123456", 1000, true⟩ (by decide) (by decide) (by decide) (by decide)
  have h2 := (c7_failures_leave_record_except_expiry
    otpExpiredState "eve@x.com" "123456" [97] 0 101).2.2.2
    ⟨"123456", 100, true⟩ (by decide) (by decide) (by decide)
  exact ⟨h1, h2.1, h2.2⟩

/-- C10: when federated Google login creates a new local user, or finds an
existing one without a password hash, it stores the bcrypt hash of the
fixed plaintext GoogleDefault@123 for that account, so a later password
login for that email with exactly that constant succeeds whenever the
source is not throttled. -/
theorem c10_google_login_installs_default_password
    (st : ServerState) (email : String) (salt now : Nat)
    (hcase : get_user_by_email st.users email = none ∨
      ∃ u, get_user_by_email st.users email = some u ∧ u.hash_password = none) :
    ∃ uid,
      (google_auth_login st (.goodToken email) salt now).1 =
        .ok { user_id := uid, email := email,
              token := create_access_token ⟨uid, email⟩ ACCESS_TOKEN_EXPIRE_MINUTES now } ∧
      get_user_by_email (google_auth_login st (.goodToken email) salt now).2.users email =
        some { user_id := uid, email := email,
               hash_password := some (hash_password salt googleDefaultPassword) } ∧
      ∀ ip now2,
        (redisGet (google_auth_login st (.goodToken email) salt now).2.login_attempts
          ("login_attempts:" ++ ip) now2).getD 0 < 5 →
        (login (google_auth_login st (.goodToken email) salt now).2 ip email
            googleDefaultPassword now2).1 =
          .ok { user_id := uid, email := email,
                token := create_access_token ⟨uid, email⟩ ACCESS_TOKEN_EXPIRE_MINUTES now2 } := by
  rcases hcase with hnone | ⟨u, hu, hnil⟩
  · refine ⟨freshUserId st.users, ?_, ?_, ?_⟩
    · simp [google_auth_login, hnone]
    · simp only [google_auth_login, hnone]
      exact get_user_by_email_create_fresh st.users email (freshUserId st.users)
        (hash_password salt googleDefaultPassword) hnone
    · intro ip now2 hatt
      refine login_with_known_row _ ip email googleDefaultPassword salt now2
        (freshUserId st.users) hatt ?_
      simp only [google_auth_login, hnone]
      exact get_user_by_email_create_fresh st.users email (freshUserId st.users)
        (hash_password salt googleDefaultPassword) hnone
  · have hmail : u.email = email := user_email_of_find st.users email u hu
    have hrow := get_user_by_email_create_user_hash st.users email u
      (hash_password salt googleDefaultPassword) hu
    have hrow2 : get_user_by_email
        (create_user_hash st.users u.user_id (hash_password salt googleDefaultPassword)) email =
        some { user_id := u.user_id, email := email,
               hash_password := some (hash_password salt googleDefaultPassword) } := by
      rw [hrow, ← hmail]
    refine ⟨u.user_id, ?_, ?_, ?_⟩
    · simp [google_auth_login, hu, hnil]
    · simp only [google_auth_login, hu, hnil]
      simpa using hrow2
    · intro ip now2 hatt
      refine login_with_known_row _ ip email googleDefaultPassword salt now2 u.user_id hatt ?_
      simp only [google_auth_login, hu, hnil] at hatt ⊢
      simpa using hrow2

/-- Witness for C10: from an empty user table, a Google login for the email
g@x.com creates the user and installs the default hash, and a password
login with the constant then succeeds. -/
theorem c10_google_login_witness :
    ∃ uid,
      (google_auth_login emptyState (.goodToken "g@x.com") 0 0).1 =
        .ok { user_id := uid, email := "g@x.com",
              token := create_access_token ⟨uid, "g@x.com"⟩ ACCESS_TOKEN_EXPIRE_MINUTES 0 } ∧
      get_user_by_email (google_auth_login emptyState (.goodToken "g@x.com") 0 0).2.users
        "g@x.com" =
        some { user_id := uid, email := "g@x.com",
               hash_password := some (hash_password 0 googleDefaultPassword) } ∧
      ∀ ip now2,
        (redisGet (google_auth_login emptyState (.goodToken "g@x.com") 0 0).2.login_attempts
          ("login_attempts:" ++ ip) now2).getD 0 < 5 →
        (login (google_auth_login emptyState (.goodToken "g@x.com") 0 0).2 ip "g@x.com"
            googleDefaultPassword now2).1 =
          .ok { user_id := uid, email := "g@x.com",
                token := create_access_token ⟨uid, "g@x.com"⟩ ACCESS_TOKEN_EXPIRE_MINUTES now2 } :=
  c10_google_login_installs_default_password emptyState "g@x.com" 0 0 (Or.inl (by decide))

end InterviewAI
